import Mathlib

/-!
Verification development for the link-health-checking subsystem of the
links-aggregator repository: the probe primitive `checkLink`, the persistence
update `updateLinkStatus`, the batch/sweep orchestration `checkBatch` /
`checkAll` (all from `src/lib/link-checker.js`), and the generic
`JobScheduler.runJob` non-overlap machinery (from the scheduler module).

The JavaScript is embedded shallowly:
* network I/O is summarized by a `ProbeOutcome` oracle (a settled fetch is
  either a response with a status code and status text, or a rejection
  carrying an error message; the code's two timeout mechanisms both surface
  as rejections with a message, e.g. "Request timeout");
* the Supabase store is an association list of rows keyed by link id;
  `.single()` succeeds exactly when the filtered row set is a singleton,
  `.update().eq` rewrites every matching row, `.delete().eq` filters them out;
* timestamps are naturals; `Date` arithmetic is addition;
* the JS event loop is modelled for the scheduler as a step machine whose
  synchronous code blocks (up to the first `await`) run atomically.
-/

namespace LinksAggregator

/-- `isOnionUrl` from link-checker.js: `url.includes('.onion')` —
substring containment anywhere in the raw URL string. -/
def isOnionUrl (url : String) : Bool :=
  decide (".onion".toList <:+: url.toList)

/-- `DEFAULT_OPTIONS.timeout` (10 seconds, in milliseconds). -/
def DEFAULT_TIMEOUT : Nat := 10000

/-- `DEFAULT_OPTIONS.batchSize`. -/
def DEFAULT_BATCH_SIZE : Nat := 10

/-- `DEFAULT_OPTIONS.maxConsecutiveFailures`. -/
def DEFAULT_MAX_CONSECUTIVE_FAILURES : Nat := 3

/-- `DEFAULT_OPTIONS.torProxy`. -/
def DEFAULT_TOR_PROXY : String := "socks5://127.0.0.1:9050"

/-- The JS `options.torProxy` value of interest: `undefined` (absent),
the literal `false`, or a proxy URL string. -/
inductive TorProxySetting where
  | unset
  | disabled
  | url (s : String)
deriving Repr, DecidableEq

/-- Options consumed by `createFetchOptions` / `checkLink`
(`timeout` and `torProxy`; absent fields are `none` / `unset`). -/
structure CheckOptions where
  timeout : Option Nat
  torProxy : TorProxySetting
deriving Repr, DecidableEq

/-- `options.timeout || DEFAULT_OPTIONS.timeout` (JS `||`: `0` is falsy). -/
def resolveTimeout (t : Option Nat) : Nat :=
  match t with
  | none => DEFAULT_TIMEOUT
  | some v => if v = 0 then DEFAULT_TIMEOUT else v

/-- `options.torProxy || DEFAULT_OPTIONS.torProxy` on the proxy branch
(JS `||`: the empty string is falsy). -/
def resolveProxyUrl (p : TorProxySetting) : String :=
  match p with
  | .url s => if s = "" then DEFAULT_TOR_PROXY else s
  | _ => DEFAULT_TOR_PROXY

/-- The fetch options object built by `createFetchOptions`: HEAD method, a
timeout, the identifying client header, and an optional SOCKS proxy agent
(represented by the proxy URL the `SocksProxyAgent` is constructed with). -/
structure FetchOptions where
  method : String
  timeout : Nat
  userAgent : String
  agent : Option String
deriving Repr, DecidableEq

/-- `createFetchOptions` from link-checker.js: base HEAD options; a proxy
agent is attached iff `isOnionUrl(url) && options.torProxy !== false`. -/
def createFetchOptions (url : String) (opts : CheckOptions) : FetchOptions :=
  let base : FetchOptions :=
    { method := "HEAD", timeout := resolveTimeout opts.timeout,
      userAgent := "LinkChecker/1.0", agent := none }
  if isOnionUrl url = true ∧ opts.torProxy ≠ TorProxySetting.disabled then
    { base with agent := some (resolveProxyUrl opts.torProxy) }
  else
    base

/-- One settled network outcome for a probe: either the raced fetch resolved
with a response (status code and status text), or it rejected (network error,
proxy failure, or either timeout mechanism) with an error message. -/
inductive ProbeOutcome where
  | response (status : Nat) (statusText : String)
  | thrown (message : String)
deriving Repr, DecidableEq

/-- node-fetch `response.ok`: status in the success class [200, 300). -/
def respOk (status : Nat) : Bool :=
  200 ≤ status && status < 300

/-- The CheckResult object produced by `checkLink`. -/
structure CheckResult where
  url : String
  status : String
  statusCode : Option Nat
  errorMessage : Option String
  checkedAt : Nat
deriving Repr, DecidableEq

/-- `checkLink` from link-checker.js, as a function of the URL, the settled
network outcome, and the capture time. Every branch of the source (response
ok / response not ok / catch) returns a CheckResult; the function never
throws, which the embedding reflects by returning `CheckResult` rather than
an exceptional type. Options affect only which network outcome occurs, not
how an outcome is folded into a CheckResult. -/
def checkLink (url : String) (outcome : ProbeOutcome) (checkedAt : Nat) :
    CheckResult :=
  match outcome with
  | .response st text =>
    if respOk st then
      { url := url, status := "live", statusCode := some st,
        errorMessage := none, checkedAt := checkedAt }
    else
      { url := url, status := "dead", statusCode := some st,
        errorMessage := some ("HTTP " ++ toString st ++ ": " ++ text),
        checkedAt := checkedAt }
  | .thrown msg =>
    { url := url, status := "dead", statusCode := none,
      errorMessage := some msg, checkedAt := checkedAt }

/-- The merged option object of a `LinkChecker` instance:
`{ ...DEFAULT_OPTIONS, ...options }`, so every field is present. -/
structure CheckerOptions where
  timeout : Nat
  batchSize : Nat
  maxConsecutiveFailures : Nat
  torProxy : TorProxySetting
deriving Repr, DecidableEq

/-- The merged options when the caller passes no overrides. -/
def defaultCheckerOptions : CheckerOptions :=
  { timeout := DEFAULT_TIMEOUT, batchSize := DEFAULT_BATCH_SIZE,
    maxConsecutiveFailures := DEFAULT_MAX_CONSECUTIVE_FAILURES,
    torProxy := TorProxySetting.url DEFAULT_TOR_PROXY }

/-- A row of the `links` table, restricted to the columns the checker reads
and writes. `consecutive_failures` is nullable in the read path
(`currentLink?.consecutive_failures || 0`), hence `Option Nat`. -/
structure LinkRecord where
  status : String
  status_code : Option Nat
  error_message : Option String
  last_checked_at : Option Nat
  last_verified_at : Option Nat
  consecutive_failures : Option Nat
deriving Repr, DecidableEq

/-- The `links` table as seen through the checker's point queries:
rows keyed by link id. -/
abbrev Store := List (Nat × LinkRecord)

/-- `.select('consecutive_failures').eq('id', linkId).single()`:
succeeds exactly when the row set filtered by id is a singleton. -/
def storeSingle (store : Store) (linkId : Nat) : Except String LinkRecord :=
  match store.filter (fun e => e.1 = linkId) with
  | [e] => Except.ok e.2
  | _ => Except.error "Failed to fetch current link data"

/-- `.delete().eq('id', linkId)`: removes every row with that id. -/
def storeDelete (store : Store) (linkId : Nat) : Store :=
  store.filter (fun e => e.1 ≠ linkId)

/-- `.update(fields).eq('id', linkId)`: rewrites the listed columns of every
row with that id, leaving other columns and other rows unchanged. -/
def storeWrite (store : Store) (linkId : Nat) (f : LinkRecord → LinkRecord) :
    Store :=
  store.map (fun e => if e.1 = linkId then (e.1, f e.2) else e)

/-- `updateLinkStatus`'s return object. -/
structure UpdateResult where
  deleted : Bool
deriving Repr, DecidableEq

/-- `newConsecutiveFailures` as computed by `updateLinkStatus`:
`currentFailures + 1` when the check came back dead, else `0`. -/
def newFailureCount (cr : CheckResult) (currentFailures : Nat) : Nat :=
  if cr.status = "dead" then currentFailures + 1 else 0

/-- The `updateData` object written in the non-delete branch: status columns,
`last_checked_at`, the failure counter, and — only when the link is live —
`last_verified_at`. Columns not listed keep their stored values. -/
def applyUpdate (cr : CheckResult) (nf : Nat) (r : LinkRecord) : LinkRecord :=
  let r1 : LinkRecord :=
    { r with
      status := cr.status,
      status_code := cr.statusCode,
      error_message := cr.errorMessage,
      last_checked_at := some cr.checkedAt,
      consecutive_failures := some nf }
  if cr.status = "live" then { r1 with last_verified_at := some cr.checkedAt }
  else r1

/-- `LinkChecker.updateLinkStatus` from link-checker.js: read the current
failure counter (the `.single()` read throws on a missing row, wrapped by the
outer catch), bump or reset it, delete the row once the counter reaches
`maxConsecutiveFailures`, otherwise write the update object back. -/
def updateLinkStatus (opts : CheckerOptions) (store : Store) (linkId : Nat)
    (cr : CheckResult) : Except String (Store × UpdateResult) :=
  match storeSingle store linkId with
  | Except.error e => Except.error ("Failed to update link status: " ++ e)
  | Except.ok current =>
    let currentFailures := current.consecutive_failures.getD 0
    let nf := newFailureCount cr currentFailures
    if opts.maxConsecutiveFailures ≤ nf then
      Except.ok (storeDelete store linkId, { deleted := true })
    else
      Except.ok (storeWrite store linkId (applyUpdate cr nf),
        { deleted := false })

/-- A row of the `links_needing_check` view as consumed by `checkBatch`
(only `id` and `url` are used). -/
structure Link where
  id : Nat
  url : String
deriving Repr, DecidableEq

/-- `checkBatch`'s tally object. -/
structure BatchResult where
  checked : Nat
  live : Nat
  dead : Nat
  deleted : Nat
  errors : Nat
deriving Repr, DecidableEq

/-- The zero-initialized tally `checkBatch` starts from (and returns
unchanged when no links are due). -/
def BatchResult.zero : BatchResult :=
  { checked := 0, live := 0, dead := 0, deleted := 0, errors := 0 }

/-- The per-link body of `checkBatch`'s `links.map(async ...)`: probe the
URL, fold the result into the store, and bump the tallies — `checked` plus
exactly one of `deleted`/`live`/`dead` on success, only `errors` when the
update throws. The accumulator also carries the store and the trace of URLs
that were probed. JS mutates the shared tally object from concurrently
launched closures of a single event loop; the final counts and row states
coincide with this sequential left fold because distinct links touch
distinct rows and each increment is atomic on the event loop. -/
def processLink (opts : CheckerOptions) (probe : Link → ProbeOutcome)
    (time : Nat) (acc : BatchResult × Store × List String) (link : Link) :
    BatchResult × Store × List String :=
  let res := acc.1
  let store := acc.2.1
  let trace := acc.2.2 ++ [link.url]
  let cr := checkLink link.url (probe link) time
  match updateLinkStatus opts store link.id cr with
  | Except.error _ => ({ res with errors := res.errors + 1 }, acc.2.1, trace)
  | Except.ok (store2, ur) =>
    let res1 := { res with checked := res.checked + 1 }
    let res2 :=
      if ur.deleted then { res1 with deleted := res1.deleted + 1 }
      else if cr.status = "live" then { res1 with live := res1.live + 1 }
      else { res1 with dead := res1.dead + 1 }
    (res2, store2, trace)

/-- `LinkChecker.checkBatch` from link-checker.js. `fetched` is what the
`links_needing_check` query would return before its `.limit(batchSize)`
clause; the limit is applied here, so at most `batchSize` links are
processed. An empty due set returns the zero tally at once, with the store
untouched and no URL probed. -/
def checkBatch (opts : CheckerOptions) (probe : Link → ProbeOutcome)
    (time : Nat) (store : Store) (fetched : List Link) :
    BatchResult × Store × List String :=
  let links := fetched.take opts.batchSize
  if links.isEmpty then (BatchResult.zero, store, [])
  else links.foldl (processLink opts probe time) (BatchResult.zero, store, [])

/-- The environment one iteration of `checkAll` runs in: the due links the
store query yields for that batch, the network outcome of each probe, and
the wall-clock capture time. -/
structure BatchEnv where
  fetched : List Link
  probe : Link → ProbeOutcome
  time : Nat

/-- `checkAll`'s aggregate object, extended with the total artificial
inter-batch delay (milliseconds of `setTimeout(..., 1000)` waited) so the
pacing behaviour is part of the model. -/
structure SweepResult where
  checked : Nat
  live : Nat
  dead : Nat
  deleted : Nat
  errors : Nat
  batches : Nat
  delayMs : Nat
deriving Repr, DecidableEq

/-- The state `checkAll` threads between batches: the store contents and
the index of the next batch (which selects that batch's environment). -/
structure SweepState where
  store : Store
  idx : Nat

/-- One `checkBatch()` call inside `checkAll`'s loop, advancing the state. -/
def runBatch (opts : CheckerOptions) (env : Nat → BatchEnv) (s : SweepState) :
    BatchResult × SweepState :=
  let e := env s.idx
  let out := checkBatch opts e.probe e.time s.store e.fetched
  (out.1, { store := out.2.1, idx := s.idx + 1 })

/-- Sweep aggregate for a final (non-continuing) batch: the loop exits, so
one batch and no delay. -/
def SweepResult.ofBatch (b : BatchResult) : SweepResult :=
  { checked := b.checked, live := b.live, dead := b.dead,
    deleted := b.deleted, errors := b.errors, batches := 1, delayMs := 0 }

/-- Prepend a full batch that was followed by the 1000 ms inter-batch delay
and the rest of the sweep. -/
def SweepResult.addFirst (b : BatchResult) (r : SweepResult) : SweepResult :=
  { checked := b.checked + r.checked, live := b.live + r.live,
    dead := b.dead + r.dead, deleted := b.deleted + r.deleted,
    errors := b.errors + r.errors, batches := r.batches + 1,
    delayMs := 1000 + r.delayMs }

/-- `LinkChecker.checkAll` from link-checker.js, with explicit fuel standing
for the number of additional loop iterations the run is allowed: the loop
continues exactly while `batchResults.checked === batchSize` (waiting 1000 ms
before the next batch), and `none` means the fuel was exhausted before the
loop exited on its own. -/
def checkAllFuel (opts : CheckerOptions) (env : Nat → BatchEnv) :
    Nat → SweepState → Option (SweepResult × SweepState)
  | 0, s =>
    let p := runBatch opts env s
    if p.1.checked = opts.batchSize then none
    else some (SweepResult.ofBatch p.1, p.2)
  | fuel + 1, s =>
    let p := runBatch opts env s
    if p.1.checked = opts.batchSize then
      match checkAllFuel opts env fuel p.2 with
      | none => none
      | some (r, s2) => some (SweepResult.addFirst p.1 r, s2)
    else some (SweepResult.ofBatch p.1, p.2)

/-- The tally of the `n`-th batch `checkAll` would run from state `s`
(0-indexed along the threaded store). -/
def batchAt (opts : CheckerOptions) (env : Nat → BatchEnv) :
    SweepState → Nat → BatchResult
  | s, 0 => (runBatch opts env s).1
  | s, n + 1 => batchAt opts env (runBatch opts env s).2 n

/-- Sum of a tally component over the first `n` batches run from `s`. -/
def batchSum (f : BatchResult → Nat) (opts : CheckerOptions)
    (env : Nat → BatchEnv) : SweepState → Nat → Nat
  | _, 0 => 0
  | s, n + 1 =>
    f (runBatch opts env s).1 + batchSum f opts env (runBatch opts env s).2 n

/-- A job entry in `JobScheduler.jobs`, restricted to the fields `runJob`
reads and writes (`name`, `task` and `intervalId` are carried by the
surrounding scheduler; the task itself is summarized by a
`TaskOutcome` oracle). -/
structure Job where
  intervalMs : Nat
  lastRun : Option Nat
  nextRun : Option Nat
  running : Bool
deriving Repr, DecidableEq

/-- How one invocation of `job.task()` settles: fulfilled or rejected
(the rejection message is what `runJob`'s catch block logs). -/
inductive TaskOutcome where
  | success
  | failure (msg : String)
deriving Repr, DecidableEq

/-- What a single `runJob` call did: skipped the tick because an invocation
was already in flight, or ran the task to settlement. -/
inductive RunOutcome where
  | skipped
  | ran (o : TaskOutcome)
deriving Repr, DecidableEq

/-- The synchronous prefix of `JobScheduler.runJob` (everything before
`await job.task()`, which the event loop executes atomically): `none` when
`job.running` guards the call into the early return, otherwise the job with
`running := true`, `lastRun := now` and `nextRun := now + intervalMs`. -/
def runJobEnter (now : Nat) (job : Job) : Option Job :=
  if job.running then none
  else some { job with
    running := true,
    lastRun := some now,
    nextRun := some (now + job.intervalMs) }

/-- The `finally` block of `runJob`: clear the in-flight flag once the task
has settled, on success and on failure alike. -/
def runJobSettle (job : Job) : Job :=
  { job with running := false }

/-- `JobScheduler.runJob` end to end, as a function of the tick time, the
task's eventual settlement and the job state at entry. The catch block
swallows a rejected task, so the function is total: it returns the final job
state and what happened, never an exception. -/
def runJob (now : Nat) (o : TaskOutcome) (job : Job) : Job × RunOutcome :=
  match runJobEnter now job with
  | none => (job, RunOutcome.skipped)
  | some j => (runJobSettle j, RunOutcome.ran o)

/-- Event-loop history for one job: a timer tick firing at a given time, or
the in-flight task invocation settling. -/
inductive SchedulerEv where
  | tick (now : Nat)
  | settle (o : TaskOutcome)
deriving Repr, DecidableEq

/-- Observable scheduler state for one job: the job record plus
instrumentation — how many task invocations are currently in flight, how
many were ever started, and how many ticks were skipped. The job record is
the only part the code stores; the counters are the quantities the
non-overlap property speaks about. -/
structure JobMachine where
  job : Job
  inflight : Nat
  starts : Nat
  skips : Nat
deriving Repr, DecidableEq

/-- One event-loop step of the scheduler around `runJob`: a tick runs the
synchronous prefix (starting an invocation or skipping), a settlement runs
the `finally` block of the invocation in flight (and is a no-op when
nothing is in flight, which a real history never exhibits). -/
def schedulerStep (m : JobMachine) (e : SchedulerEv) : JobMachine :=
  match e with
  | SchedulerEv.tick now =>
    match runJobEnter now m.job with
    | none => { m with skips := m.skips + 1 }
    | some j =>
      { m with job := j, inflight := m.inflight + 1, starts := m.starts + 1 }
  | SchedulerEv.settle _ =>
    if m.job.running then
      { m with job := runJobSettle m.job, inflight := m.inflight - 1 }
    else m

/-- Run a whole event-loop history. -/
def schedulerRun (m : JobMachine) (evs : List SchedulerEv) : JobMachine :=
  evs.foldl schedulerStep m

/-- Claim C2: for every input URL and every settled network outcome,
`checkLink` resolves (never raises — it is a total function into
`CheckResult`) to a well-formed result: live with the response's status code
and a null error message on a success-class response; dead with the status
code and an "HTTP code: reason" message on a non-success response; dead with
a null status code and the failure text when the probe throws (network
error, timeout, proxy failure); and in every case `url` and `checkedAt` are
populated from the inputs. -/
theorem checkLink_total_spec (url : String) (t st : Nat)
    (text msg : String) (o : ProbeOutcome) :
    (respOk st = true →
      checkLink url (ProbeOutcome.response st text) t =
        { url := url, status := "live", statusCode := some st,
          errorMessage := none, checkedAt := t }) ∧
    (respOk st = false →
      checkLink url (ProbeOutcome.response st text) t =
        { url := url, status := "dead", statusCode := some st,
          errorMessage := some ("HTTP " ++ toString st ++ ": " ++ text),
          checkedAt := t }) ∧
    (checkLink url (ProbeOutcome.thrown msg) t =
      { url := url, status := "dead", statusCode := none,
        errorMessage := some msg, checkedAt := t }) ∧
    (checkLink url o t).url = url ∧
    (checkLink url o t).checkedAt = t := by
  refine ⟨fun h => by simp [checkLink, h], fun h => by simp [checkLink, h],
    rfl, ?_, ?_⟩ <;> cases o <;> simp [checkLink] <;> split <;> rfl

/-- Witness for C2 at a concrete URL, a success response, and a thrown
probe. -/
theorem checkLink_total_spec_witness :
    checkLink "https://example.com/" (ProbeOutcome.response 200 "OK") 7 =
      { url := "https://example.com/", status := "live",
        statusCode := some 200, errorMessage := none, checkedAt := 7 } ∧
    checkLink "https://example.com/" (ProbeOutcome.thrown "socket hang up") 7 =
      { url := "https://example.com/", status := "dead", statusCode := none,
        errorMessage := some "socket hang up", checkedAt := 7 } :=
  ⟨(checkLink_total_spec "https://example.com/" 7 200 "OK" "socket hang up"
      (ProbeOutcome.thrown "socket hang up")).1 (by decide),
   (checkLink_total_spec "https://example.com/" 7 200 "OK" "socket hang up"
      (ProbeOutcome.thrown "socket hang up")).2.2.1⟩

/-- Counterexample to claim C5 as stated: proxy routing for onion addresses
is not mandatory under every option configuration — with
`options.torProxy === false` the code attaches no SOCKS agent even though
the URL is an onion address, so the probe would use direct egress. -/
theorem torProxy_false_onion_direct_cex :
    isOnionUrl "http://example.onion/" = true ∧
    (createFetchOptions "http://example.onion/"
      { timeout := none, torProxy := TorProxySetting.disabled }).agent =
      none := by
  constructor
  · decide
  · rfl

/-- Claim C5 (amended): for every URL the code classifies as an onion
address (the `.onion` substring test), unless the caller explicitly passes
`torProxy: false`, `createFetchOptions` attaches a SOCKS proxy agent built
from the configured proxy URL (defaulting to the local loopback
`socks5://127.0.0.1:9050`); if the proxy is unreachable the probe settles as
a rejection and `checkLink` resolves to a dead CheckResult carrying the
failure text rather than raising; and for every URL not containing
`.onion`, no proxy agent is attached. -/
theorem createFetchOptions_onion_amended (url : String)
    (opts : CheckOptions) (msg : String) (t : Nat) :
    (isOnionUrl url = true → opts.torProxy ≠ TorProxySetting.disabled →
      (createFetchOptions url opts).agent =
        some (resolveProxyUrl opts.torProxy)) ∧
    (isOnionUrl url = false → (createFetchOptions url opts).agent = none) ∧
    (checkLink url (ProbeOutcome.thrown msg) t).status = "dead" ∧
    (checkLink url (ProbeOutcome.thrown msg) t).errorMessage = some msg := by
  refine ⟨?_, ?_, rfl, rfl⟩
  · intro h1 h2
    simp [createFetchOptions, h1, h2]
  · intro h1
    simp [createFetchOptions, h1]

/-- Witness for the amended C5: a concrete onion URL with default options
gets the default Tor proxy agent. -/
theorem createFetchOptions_onion_amended_witness :
    (createFetchOptions "http://example.onion/"
      { timeout := none, torProxy := TorProxySetting.unset }).agent =
      some (resolveProxyUrl TorProxySetting.unset) :=
  (createFetchOptions_onion_amended "http://example.onion/"
    { timeout := none, torProxy := TorProxySetting.unset } "m" 0).1
    (by decide) (by decide)

/-- Claim C10: the proxy routing is opt-out-able — `torProxy: false` yields
no SOCKS agent for any URL, onion or not; and the onion test is substring
containment of ".onion" anywhere in the raw URL string rather than a suffix
test on the parsed host, exhibited on a URL whose host is
`wiki.onion.example.com` (not under the `.onion` suffix) yet which is
classified as onion and gets the default proxy agent attached. -/
theorem onion_opt_out_and_substring_test (url : String)
    (opts : CheckOptions) :
    (opts.torProxy = TorProxySetting.disabled →
      (createFetchOptions url opts).agent = none) ∧
    (isOnionUrl url = true ↔ ".onion".toList <:+: url.toList) ∧
    isOnionUrl "https://wiki.onion.example.com/page" = true ∧
    (createFetchOptions "https://wiki.onion.example.com/page"
      { timeout := none, torProxy := TorProxySetting.unset }).agent =
      some DEFAULT_TOR_PROXY := by
  refine ⟨?_, ?_, by decide, by rfl⟩
  · intro h
    simp [createFetchOptions, h]
  · simp [isOnionUrl]

/-- Witness for C10: disabling the proxy on a concrete onion URL attaches
no agent. -/
theorem onion_opt_out_and_substring_test_witness :
    (createFetchOptions "http://example.onion/"
      { timeout := none, torProxy := TorProxySetting.disabled }).agent =
      none :=
  (onion_opt_out_and_substring_test "http://example.onion/"
    { timeout := none, torProxy := TorProxySetting.disabled }).1 rfl

/-- Claim C9: for every job and every task outcome — fulfilment or
rejection alike — `runJob` entered with `running = false` returns normally
(the rejection is caught, so nothing propagates out of the timer callback),
and the job's `running` flag is cleared after the task settles (the
`finally` block), so a subsequent tick is not skipped: `runJobEnter` on the
resulting state succeeds. -/
theorem runJob_failure_contained (job : Job) (now now2 : Nat)
    (o : TaskOutcome) (h : job.running = false) :
    runJob now o job =
      ({ intervalMs := job.intervalMs, lastRun := some now,
         nextRun := some (now + job.intervalMs), running := false },
       RunOutcome.ran o) ∧
    (runJob now o job).1.running = false ∧
    (runJobEnter now2 (runJob now o job).1).isSome = true := by
  simp [runJob, runJobEnter, runJobSettle, h]

/-- Witness for C9 at a concrete idle job whose task rejects. -/
theorem runJob_failure_contained_witness :
    runJob 50 (TaskOutcome.failure "sweep blew up")
      { intervalMs := 86400000, lastRun := none, nextRun := none,
        running := false } =
      ({ intervalMs := 86400000, lastRun := some 50,
         nextRun := some (50 + 86400000), running := false },
       RunOutcome.ran (TaskOutcome.failure "sweep blew up")) :=
  (runJob_failure_contained
    { intervalMs := 86400000, lastRun := none, nextRun := none,
      running := false } 50 99 (TaskOutcome.failure "sweep blew up") rfl).1

/-- Claim C8: when the store reports zero due links, `checkBatch` returns
the all-zero tally immediately, probing no URL (empty trace) and leaving the
store untouched; and since the zero tally has `checked = 0`, a positive
batch size makes this outcome satisfy `checked < batchSize`, the enclosing
sweep's termination condition. -/
theorem checkBatch_zero_due (opts : CheckerOptions)
    (probe : Link → ProbeOutcome) (time : Nat) (store : Store) :
    checkBatch opts probe time store [] = (BatchResult.zero, store, []) ∧
    (0 < opts.batchSize →
      (checkBatch opts probe time store []).1.checked < opts.batchSize) := by
  constructor
  · simp [checkBatch]
  · intro h
    simpa [checkBatch, BatchResult.zero] using h

/-- Witness for C8 with default options and a one-row store. -/
theorem checkBatch_zero_due_witness :
    checkBatch defaultCheckerOptions (fun _ => ProbeOutcome.thrown "x") 3
      [(1, { status := "live", status_code := some 200,
             error_message := none, last_checked_at := some 1,
             last_verified_at := some 1, consecutive_failures := some 0 })]
      [] =
      (BatchResult.zero,
       [(1, { status := "live", status_code := some 200,
              error_message := none, last_checked_at := some 1,
              last_verified_at := some 1, consecutive_failures := some 0 })],
       []) ∧
    (checkBatch defaultCheckerOptions (fun _ => ProbeOutcome.thrown "x") 3
      [(1, { status := "live", status_code := some 200,
             error_message := none, last_checked_at := some 1,
             last_verified_at := some 1, consecutive_failures := some 0 })]
      []).1.checked < defaultCheckerOptions.batchSize :=
  ⟨(checkBatch_zero_due defaultCheckerOptions (fun _ => ProbeOutcome.thrown "x")
      3 _).1,
   (checkBatch_zero_due defaultCheckerOptions (fun _ => ProbeOutcome.thrown "x")
      3 _).2 (by decide)⟩

/-- Helper: one event-loop step preserves the linkage between the `running`
flag and the number of in-flight task invocations. -/
theorem schedulerStep_inflight_linked (m : JobMachine) (e : SchedulerEv)
    (h : m.inflight = if m.job.running then 1 else 0) :
    (schedulerStep m e).inflight =
      if (schedulerStep m e).job.running then 1 else 0 := by
  cases e with
  | tick now =>
    by_cases hr : m.job.running
    · simp [schedulerStep, runJobEnter, hr, h]
    · simp [schedulerStep, runJobEnter, hr, h]
  | settle o =>
    by_cases hr : m.job.running
    · simp [schedulerStep, runJobSettle, hr, h]
    · simp [schedulerStep, hr, h]

/-- Helper: the linkage invariant holds after any event-loop history. -/
theorem schedulerRun_inflight_linked (evs : List SchedulerEv) :
    ∀ m : JobMachine, m.inflight = (if m.job.running then 1 else 0) →
    (schedulerRun m evs).inflight =
      if (schedulerRun m evs).job.running then 1 else 0 := by
  induction evs with
  | nil => intro m h; exact h
  | cons e tl ih =>
    intro m h
    exact ih (schedulerStep m e) (schedulerStep_inflight_linked m e h)

/-- Claim C1: at most one invocation of a job's task is in flight at any
instant. Per call: entered with `running = true`, `runJob` returns the job
unchanged (no task invocation, `lastRun`/`nextRun` untouched) and the
event-loop step for such a tick only counts a skip — nothing is queued or
coalesced (`job`, `inflight` and `starts` are unchanged); entered with
`running = false`, the synchronous prefix sets `running := true` before the
task is invoked and the flag is cleared only by the settle step. Globally:
along every event-loop history from a state where the in-flight count
matches the flag, at most one invocation is ever in flight. -/
theorem runJob_non_overlap (job : Job) (now : Nat) (o : TaskOutcome)
    (m : JobMachine) (evs : List SchedulerEv) :
    (job.running = true → runJob now o job = (job, RunOutcome.skipped)) ∧
    (job.running = false →
      ∃ j, runJobEnter now job = some j ∧ j.running = true ∧
        j.lastRun = some now ∧ j.nextRun = some (now + job.intervalMs) ∧
        runJob now o job = (runJobSettle j, RunOutcome.ran o) ∧
        (runJobSettle j).running = false) ∧
    (m.job.running = true →
      schedulerStep m (SchedulerEv.tick now) =
        { m with skips := m.skips + 1 }) ∧
    (m.inflight = (if m.job.running then 1 else 0) →
      (schedulerRun m evs).inflight ≤ 1) := by
  refine ⟨?_, ?_, ?_, ?_⟩
  · intro h
    simp [runJob, runJobEnter, h]
  · intro h
    refine ⟨{ job with
        running := true,
        lastRun := some now,
        nextRun := some (now + job.intervalMs) }, ?_, rfl, rfl, rfl, ?_, rfl⟩
    · simp [runJobEnter, h]
    · simp [runJob, runJobEnter, runJobSettle, h]
  · intro h
    simp [schedulerStep, runJobEnter, h]
  · intro h
    rw [schedulerRun_inflight_linked evs m h]
    split <;> simp

/-- Witness for C1: a concrete busy job skips, a concrete idle machine runs
a tick/settle/tick history with at most one invocation in flight. -/
theorem runJob_non_overlap_witness :
    runJob 10 TaskOutcome.success
      { intervalMs := 1000, lastRun := some 3, nextRun := some 1003,
        running := true } =
      ({ intervalMs := 1000, lastRun := some 3, nextRun := some 1003,
         running := true }, RunOutcome.skipped) ∧
    (schedulerRun
      { job := { intervalMs := 1000, lastRun := none, nextRun := none,
                 running := false },
        inflight := 0, starts := 0, skips := 0 }
      [SchedulerEv.tick 1, SchedulerEv.tick 2,
       SchedulerEv.settle TaskOutcome.success,
       SchedulerEv.tick 3]).inflight ≤ 1 :=
  ⟨(runJob_non_overlap
      { intervalMs := 1000, lastRun := some 3, nextRun := some 1003,
        running := true } 10 TaskOutcome.success
      { job := { intervalMs := 1000, lastRun := none, nextRun := none,
                 running := false },
        inflight := 0, starts := 0, skips := 0 }
      [SchedulerEv.tick 1, SchedulerEv.tick 2,
       SchedulerEv.settle TaskOutcome.success,
       SchedulerEv.tick 3]).1 rfl,
   (runJob_non_overlap
      { intervalMs := 1000, lastRun := some 3, nextRun := some 1003,
        running := true } 10 TaskOutcome.success
      { job := { intervalMs := 1000, lastRun := none, nextRun := none,
                 running := false },
        inflight := 0, starts := 0, skips := 0 }
      [SchedulerEv.tick 1, SchedulerEv.tick 2,
       SchedulerEv.settle TaskOutcome.success,
       SchedulerEv.tick 3]).2.2.2 rfl⟩

/-- Helper: the update object always carries the computed failure
counter, whichever branch of the live test is taken. -/
theorem applyUpdate_consecutive_failures (cr : CheckResult) (nf : Nat)
    (r : LinkRecord) :
    (applyUpdate cr nf r).consecutive_failures = some nf := by
  unfold applyUpdate
  split <;> rfl

/-- Helper: filtering the rows with a given id commutes with an
`.update().eq('id', ...)` write: the surviving rows are the written images
of the rows that matched before. -/
theorem filter_storeWrite (store : Store) (linkId : Nat)
    (f : LinkRecord → LinkRecord) :
    (storeWrite store linkId f).filter (fun e => e.1 = linkId) =
      (store.filter (fun e => e.1 = linkId)).map (fun e => (e.1, f e.2)) := by
  induction store with
  | nil => rfl
  | cons a l ih =>
    by_cases h : a.1 = linkId
    · simp [storeWrite, List.filter_cons, h] at ih ⊢
      exact ih
    · simp [storeWrite, List.filter_cons, h] at ih ⊢
      exact ih

/-- Helper: if the point read found exactly one row, the point read after an
`.update().eq('id', ...)` write finds exactly its written image. -/
theorem storeSingle_storeWrite (store : Store) (linkId : Nat)
    (f : LinkRecord → LinkRecord) (cur : LinkRecord)
    (hs : storeSingle store linkId = Except.ok cur) :
    storeSingle (storeWrite store linkId f) linkId = Except.ok (f cur) := by
  unfold storeSingle at hs ⊢
  rw [filter_storeWrite]
  cases hf : store.filter (fun e => e.1 = linkId) with
  | nil => rw [hf] at hs; simp at hs
  | cons e0 tl =>
    cases tl with
    | nil =>
      rw [hf] at hs
      simp at hs
      simp [hs]
    | cons e1 tl2 => rw [hf] at hs; simp at hs

/-- Claim C3: once the updated failure count reaches the configured
threshold, `updateLinkStatus` deletes the row and reports
`{deleted := true}` — the record is not written back in the dead state —
and, whatever branch any call takes, a row whose failure counter is at or
above the threshold never appears in the store it returns if none was there
before. -/
theorem updateLinkStatus_threshold_deletes (opts : CheckerOptions)
    (store : Store) (linkId : Nat) (cr : CheckResult) (cur : LinkRecord) :
    (storeSingle store linkId = Except.ok cur →
      opts.maxConsecutiveFailures ≤
        newFailureCount cr (cur.consecutive_failures.getD 0) →
      updateLinkStatus opts store linkId cr =
        Except.ok (storeDelete store linkId, { deleted := true }) ∧
      ∀ e ∈ storeDelete store linkId, e.1 ≠ linkId) ∧
    (∀ store2 u,
      updateLinkStatus opts store linkId cr = Except.ok (store2, u) →
      (∀ e ∈ store,
        e.2.consecutive_failures.getD 0 < opts.maxConsecutiveFailures) →
      ∀ e ∈ store2,
        e.2.consecutive_failures.getD 0 < opts.maxConsecutiveFailures) := by
  constructor
  · intro hs hge
    constructor
    · simp [updateLinkStatus, hs, hge]
    · intro e he
      simp [storeDelete, List.mem_filter] at he
      exact he.2
  · intro store2 u hupd hall e he
    cases hsv : storeSingle store linkId with
    | error err => simp [updateLinkStatus, hsv] at hupd
    | ok c =>
      simp only [updateLinkStatus, hsv] at hupd
      split at hupd
      · simp only [Except.ok.injEq, Prod.mk.injEq] at hupd
        rcases hupd with ⟨hst, _⟩
        subst hst
        exact hall e (List.mem_of_mem_filter he)
      · rename_i hnotge
        simp only [Except.ok.injEq, Prod.mk.injEq] at hupd
        rcases hupd with ⟨hst, _⟩
        subst hst
        rcases List.mem_map.mp he with ⟨a, ha, hae⟩
        by_cases haid : a.1 = linkId
        · rw [if_pos haid] at hae
          rw [← hae]
          simp only [applyUpdate_consecutive_failures, Option.getD_some]
          omega
        · rw [if_neg haid] at hae
          rw [← hae]
          exact hall a ha

/-- Witness for C3: a row with two prior failures and a dead probe result
under the default threshold of 3 is deleted rather than written back. -/
theorem updateLinkStatus_threshold_deletes_witness :
    updateLinkStatus defaultCheckerOptions
      [(7, { status := "live", status_code := some 200,
             error_message := none, last_checked_at := some 1,
             last_verified_at := some 1, consecutive_failures := some 2 })]
      7
      { url := "http://x.example/", status := "dead",
        statusCode := some 500,
        errorMessage := some "HTTP 500: Internal Server Error",
        checkedAt := 99 } =
      Except.ok (storeDelete
        [(7, { status := "live", status_code := some 200,
               error_message := none, last_checked_at := some 1,
               last_verified_at := some 1, consecutive_failures := some 2 })]
        7, { deleted := true }) ∧
    ∀ e ∈ storeDelete
      [(7, { status := "live", status_code := some 200,
             error_message := none, last_checked_at := some 1,
             last_verified_at := some 1, consecutive_failures := some 2 })]
      7, e.1 ≠ 7 :=
  (updateLinkStatus_threshold_deletes defaultCheckerOptions
    [(7, { status := "live", status_code := some 200,
           error_message := none, last_checked_at := some 1,
           last_verified_at := some 1, consecutive_failures := some 2 })]
    7
    { url := "http://x.example/", status := "dead", statusCode := some 500,
      errorMessage := some "HTTP 500: Internal Server Error",
      checkedAt := 99 }
    { status := "live", status_code := some 200, error_message := none,
      last_checked_at := some 1, last_verified_at := some 1,
      consecutive_failures := some 2 }).1 rfl (by decide)

/-- Claim C4: below the threshold, `updateLinkStatus` persists exactly the
update object — status, status code, error message,
`last_checked_at := checkedAt`, the recomputed failure counter (bumped on
dead, reset to 0 otherwise, so one live result resets it regardless of its
prior value) — advances `last_verified_at` to `checkedAt` exactly when the
status is live (otherwise the stored value is retained), and reports
`{deleted := false}`. -/
theorem updateLinkStatus_below_threshold_persists (opts : CheckerOptions)
    (store : Store) (linkId : Nat) (cr : CheckResult) (cur : LinkRecord)
    (nf : Nat)
    (hs : storeSingle store linkId = Except.ok cur)
    (hnf : nf = newFailureCount cr (cur.consecutive_failures.getD 0))
    (hlt : nf < opts.maxConsecutiveFailures) :
    updateLinkStatus opts store linkId cr =
      Except.ok (storeWrite store linkId (applyUpdate cr nf),
        { deleted := false }) ∧
    storeSingle (storeWrite store linkId (applyUpdate cr nf)) linkId =
      Except.ok (applyUpdate cr nf cur) ∧
    (applyUpdate cr nf cur).status = cr.status ∧
    (applyUpdate cr nf cur).status_code = cr.statusCode ∧
    (applyUpdate cr nf cur).error_message = cr.errorMessage ∧
    (applyUpdate cr nf cur).last_checked_at = some cr.checkedAt ∧
    (applyUpdate cr nf cur).consecutive_failures = some nf ∧
    (applyUpdate cr nf cur).last_verified_at =
      (if cr.status = "live" then some cr.checkedAt
       else cur.last_verified_at) ∧
    (cr.status = "live" → nf = 0) := by
  subst hnf
  refine ⟨?_, storeSingle_storeWrite store linkId _ cur hs, ?_, ?_, ?_, ?_,
    applyUpdate_consecutive_failures cr _ cur, ?_, ?_⟩
  · simp [updateLinkStatus, hs, Nat.not_le.mpr hlt]
  · by_cases hl : cr.status = "live" <;> simp [applyUpdate, hl]
  · by_cases hl : cr.status = "live" <;> simp [applyUpdate, hl]
  · by_cases hl : cr.status = "live" <;> simp [applyUpdate, hl]
  · by_cases hl : cr.status = "live" <;> simp [applyUpdate, hl]
  · by_cases hl : cr.status = "live" <;> simp [applyUpdate, hl]
  · intro hl
    simp [newFailureCount, hl]

/-- Witness for C4 (the spec's scenario B): two prior failures, a live
probe result — the row is written back with the counter reset to 0. -/
theorem updateLinkStatus_below_threshold_persists_witness :
    updateLinkStatus defaultCheckerOptions
      [(7, { status := "dead", status_code := some 503,
             error_message := some "HTTP 503: Service Unavailable",
             last_checked_at := some 1, last_verified_at := none,
             consecutive_failures := some 2 })]
      7
      { url := "http://x.example/", status := "live",
        statusCode := some 200, errorMessage := none, checkedAt := 99 } =
      Except.ok (storeWrite
        [(7, { status := "dead", status_code := some 503,
               error_message := some "HTTP 503: Service Unavailable",
               last_checked_at := some 1, last_verified_at := none,
               consecutive_failures := some 2 })]
        7
        (applyUpdate
          { url := "http://x.example/", status := "live",
            statusCode := some 200, errorMessage := none, checkedAt := 99 }
          0), { deleted := false }) ∧
    (applyUpdate
      { url := "http://x.example/", status := "live", statusCode := some 200,
        errorMessage := none, checkedAt := 99 }
      0
      { status := "dead", status_code := some 503,
        error_message := some "HTTP 503: Service Unavailable",
        last_checked_at := some 1, last_verified_at := none,
        consecutive_failures := some 2 }).consecutive_failures = some 0 :=
  ⟨(updateLinkStatus_below_threshold_persists defaultCheckerOptions
      [(7, { status := "dead", status_code := some 503,
             error_message := some "HTTP 503: Service Unavailable",
             last_checked_at := some 1, last_verified_at := none,
             consecutive_failures := some 2 })]
      7
      { url := "http://x.example/", status := "live", statusCode := some 200,
        errorMessage := none, checkedAt := 99 }
      { status := "dead", status_code := some 503,
        error_message := some "HTTP 503: Service Unavailable",
        last_checked_at := some 1, last_verified_at := none,
        consecutive_failures := some 2 }
      0 rfl (by decide) (by decide)).1,
   (updateLinkStatus_below_threshold_persists defaultCheckerOptions
      [(7, { status := "dead", status_code := some 503,
             error_message := some "HTTP 503: Service Unavailable",
             last_checked_at := some 1, last_verified_at := none,
             consecutive_failures := some 2 })]
      7
      { url := "http://x.example/", status := "live", statusCode := some 200,
        errorMessage := none, checkedAt := 99 }
      { status := "dead", status_code := some 503,
        error_message := some "HTTP 503: Service Unavailable",
        last_checked_at := some 1, last_verified_at := none,
        consecutive_failures := some 2 }
      0 rfl (by decide) (by decide)).2.2.2.2.2.2.1⟩

/-- Helper: one `processLink` step adds exactly one to `checked + errors`,
preserves `checked = live + dead + deleted`, and appends the probed URL to
the trace. -/
theorem processLink_counts (opts : CheckerOptions)
    (probe : Link → ProbeOutcome) (time : Nat)
    (acc : BatchResult × Store × List String) (l : Link) :
    ((processLink opts probe time acc l).1.checked +
      (processLink opts probe time acc l).1.errors =
      acc.1.checked + acc.1.errors + 1) ∧
    (acc.1.checked = acc.1.live + acc.1.dead + acc.1.deleted →
      (processLink opts probe time acc l).1.checked =
        (processLink opts probe time acc l).1.live +
        (processLink opts probe time acc l).1.dead +
        (processLink opts probe time acc l).1.deleted) ∧
    ((processLink opts probe time acc l).2.2 = acc.2.2 ++ [l.url]) := by
  obtain ⟨r, store, tr⟩ := acc
  unfold processLink
  dsimp only
  split
  · exact ⟨by dsimp only; omega, fun h => by dsimp only; omega, rfl⟩
  · split
    · exact ⟨by dsimp only; omega, fun h => by dsimp only; omega, rfl⟩
    · split
      · exact ⟨by dsimp only; omega, fun h => by dsimp only; omega, rfl⟩
      · exact ⟨by dsimp only; omega, fun h => by dsimp only; omega, rfl⟩

/-- Helper: the per-link fold of `checkBatch` keeps
`checked = live + dead + deleted`, adds one to `checked + errors` per link
processed, and extends the probe trace by the URL of each link in order. -/
theorem processLink_fold_counts (opts : CheckerOptions)
    (probe : Link → ProbeOutcome) (time : Nat) :
    ∀ (links : List Link) (acc : BatchResult × Store × List String),
    acc.1.checked = acc.1.live + acc.1.dead + acc.1.deleted →
    ((links.foldl (processLink opts probe time) acc).1.checked =
      (links.foldl (processLink opts probe time) acc).1.live +
      (links.foldl (processLink opts probe time) acc).1.dead +
      (links.foldl (processLink opts probe time) acc).1.deleted) ∧
    ((links.foldl (processLink opts probe time) acc).1.checked +
      (links.foldl (processLink opts probe time) acc).1.errors =
      acc.1.checked + acc.1.errors + links.length) ∧
    ((links.foldl (processLink opts probe time) acc).2.2 =
      acc.2.2 ++ links.map (fun l => l.url)) := by
  intro links
  induction links with
  | nil =>
    intro acc h
    simpa using h
  | cons l tl ih =>
    intro acc h
    rcases processLink_counts opts probe time acc l with ⟨h1, h2, h3⟩
    rcases ih (processLink opts probe time acc l) (h2 h) with ⟨g1, g2, g3⟩
    simp only [List.foldl_cons, List.map_cons, List.length_cons]
    refine ⟨g1, by omega, ?_⟩
    rw [g3, h3]
    simp

/-- Helper: the tally identities of one `checkBatch` call — the split of
`checked`, the accounting of every fetched link, the probe trace, and the
bound `checked ≤ batchSize` coming from the `.limit(batchSize)` clause. -/
theorem checkBatch_counts (opts : CheckerOptions)
    (probe : Link → ProbeOutcome) (time : Nat) (store : Store)
    (fetched : List Link) :
    ((checkBatch opts probe time store fetched).1.checked =
      (checkBatch opts probe time store fetched).1.live +
      (checkBatch opts probe time store fetched).1.dead +
      (checkBatch opts probe time store fetched).1.deleted) ∧
    ((checkBatch opts probe time store fetched).1.checked +
      (checkBatch opts probe time store fetched).1.errors =
      (fetched.take opts.batchSize).length) ∧
    ((checkBatch opts probe time store fetched).2.2 =
      (fetched.take opts.batchSize).map (fun l => l.url)) ∧
    ((checkBatch opts probe time store fetched).1.checked ≤
      opts.batchSize) := by
  have hlen : (fetched.take opts.batchSize).length ≤ opts.batchSize := by
    simp [List.length_take]
  unfold checkBatch
  dsimp only
  split
  · rename_i hemp
    rw [List.isEmpty_iff] at hemp
    simp [hemp, BatchResult.zero]
  · rcases processLink_fold_counts opts probe time
      (fetched.take opts.batchSize) (BatchResult.zero, store, []) rfl with
      ⟨g1, g2, g3⟩
    dsimp only at g2
    rw [show BatchResult.zero.checked = 0 from rfl,
      show BatchResult.zero.errors = 0 from rfl] at g2
    exact ⟨g1, by omega, by simpa using g3, by omega⟩

/-- Claim C7: in every batch, each fetched link lands in exactly one tally —
probe-and-update success increments `checked` together with exactly one of
`live`/`dead`/`deleted`, and an exception increments only `errors` while the
sibling links are still processed (every fetched URL appears in the probe
trace). Hence `checked = live + dead + deleted` and
`checked + errors` equals the number of links fetched
(the due links after the `.limit(batchSize)` clause). -/
theorem checkBatch_counting (opts : CheckerOptions)
    (probe : Link → ProbeOutcome) (time : Nat) (store : Store)
    (fetched : List Link) :
    ((checkBatch opts probe time store fetched).1.checked =
      (checkBatch opts probe time store fetched).1.live +
      (checkBatch opts probe time store fetched).1.dead +
      (checkBatch opts probe time store fetched).1.deleted) ∧
    ((checkBatch opts probe time store fetched).1.checked +
      (checkBatch opts probe time store fetched).1.errors =
      (fetched.take opts.batchSize).length) ∧
    ((checkBatch opts probe time store fetched).2.2 =
      (fetched.take opts.batchSize).map (fun l => l.url)) :=
  ⟨(checkBatch_counts opts probe time store fetched).1,
   (checkBatch_counts opts probe time store fetched).2.1,
   (checkBatch_counts opts probe time store fetched).2.2.1⟩

/-- Helper: every batch a sweep runs checks at most `batchSize` links. -/
theorem batchAt_checked_le (opts : CheckerOptions) (env : Nat → BatchEnv) :
    ∀ (n : Nat) (s : SweepState),
    (batchAt opts env s n).checked ≤ opts.batchSize := by
  intro n
  induction n with
  | zero =>
    intro s
    exact (checkBatch_counts opts (env s.idx).probe (env s.idx).time
      s.store (env s.idx).fetched).2.2.2
  | succ n ih =>
    intro s
    exact ih (runBatch opts env s).2

/-- Helper: if the `n`-th batch of the run breaks the `checked = batchSize`
continuation condition, `checkAllFuel` with fuel `n` terminates with
`some`, at the first such batch, summing every tally over the batches run,
counting the batches, and having waited 1000 ms before each batch after the
first. -/
theorem checkAll_run_spec (opts : CheckerOptions) (env : Nat → BatchEnv) :
    ∀ (n : Nat) (s : SweepState),
    (batchAt opts env s n).checked ≠ opts.batchSize →
    ∃ r s2, checkAllFuel opts env n s = some (r, s2) ∧
      ∃ N, N ≤ n ∧
        (∀ k, k < N → (batchAt opts env s k).checked = opts.batchSize) ∧
        (batchAt opts env s N).checked < opts.batchSize ∧
        r.batches = N + 1 ∧
        r.checked = batchSum (fun b => b.checked) opts env s (N + 1) ∧
        r.live = batchSum (fun b => b.live) opts env s (N + 1) ∧
        r.dead = batchSum (fun b => b.dead) opts env s (N + 1) ∧
        r.deleted = batchSum (fun b => b.deleted) opts env s (N + 1) ∧
        r.errors = batchSum (fun b => b.errors) opts env s (N + 1) ∧
        r.delayMs = 1000 * N := by
  have hsum : ∀ (f : BatchResult → Nat) (s : SweepState) (m : Nat),
      batchSum f opts env s (m + 1) =
        f (runBatch opts env s).1 +
          batchSum f opts env (runBatch opts env s).2 m :=
    fun _ _ _ => rfl
  intro n
  induction n with
  | zero =>
    intro s h
    have h0 : (runBatch opts env s).1.checked ≠ opts.batchSize := h
    refine ⟨SweepResult.ofBatch (runBatch opts env s).1,
      (runBatch opts env s).2, ?_, 0, Nat.le_refl 0,
      fun k hk => absurd hk (Nat.not_lt_zero k),
      Nat.lt_of_le_of_ne (batchAt_checked_le opts env 0 s) h,
      rfl, ?_, ?_, ?_, ?_, ?_, rfl⟩
    · simp only [checkAllFuel]
      rw [if_neg h0]
    all_goals
      rw [hsum]
      rfl
  | succ n ih =>
    intro s h
    by_cases hb : (runBatch opts env s).1.checked = opts.batchSize
    · have h2 : (batchAt opts env (runBatch opts env s).2 n).checked ≠
          opts.batchSize := h
      rcases ih (runBatch opts env s).2 h2 with
        ⟨r, s2, hrun, N, hNle, hfull, hsmall, hbat, hc, hl, hd, hdel,
          herr, hdelay⟩
      refine ⟨SweepResult.addFirst (runBatch opts env s).1 r, s2, ?_,
        N + 1, by omega, ?_, hsmall, ?_, ?_, ?_, ?_, ?_, ?_, ?_⟩
      · simp only [checkAllFuel]
        rw [if_pos hb, hrun]
      · intro k hk
        cases k with
        | zero => exact hb
        | succ k2 => exact hfull k2 (by omega)
      · simp only [SweepResult.addFirst]
        omega
      · show (runBatch opts env s).1.checked + r.checked = _
        rw [hsum, hc]
      · show (runBatch opts env s).1.live + r.live = _
        rw [hsum, hl]
      · show (runBatch opts env s).1.dead + r.dead = _
        rw [hsum, hd]
      · show (runBatch opts env s).1.deleted + r.deleted = _
        rw [hsum, hdel]
      · show (runBatch opts env s).1.errors + r.errors = _
        rw [hsum, herr]
      · show 1000 + r.delayMs = 1000 * (N + 1)
        omega
    · refine ⟨SweepResult.ofBatch (runBatch opts env s).1,
        (runBatch opts env s).2, ?_, 0, Nat.zero_le _,
        fun k hk => absurd hk (Nat.not_lt_zero k),
        Nat.lt_of_le_of_ne (batchAt_checked_le opts env 0 s) hb,
        rfl, ?_, ?_, ?_, ?_, ?_, rfl⟩
      · simp only [checkAllFuel]
        rw [if_neg hb]
      all_goals
        rw [hsum]
        rfl

/-- Claim C6: `checkAll` repeats `checkBatch` and continues exactly when
the tally satisfies `checked = batchSize` — and `checked` never exceeds
`batchSize`, so a batch with `checked < batchSize` is the only way the loop
stops — with a fixed 1000 ms delay before each continuing batch. Under the
precondition that some batch of the run has `checked < batchSize`, the
sweep terminates in finitely many batches (fuel `n` suffices when the
`n`-th batch is small), at the first small batch, returning the sums of
checked/live/dead/deleted/errors over all batches run plus the batch
count. -/
theorem checkAll_terminates_and_sums (opts : CheckerOptions)
    (env : Nat → BatchEnv) (s : SweepState) (n : Nat)
    (h : (batchAt opts env s n).checked ≠ opts.batchSize) :
    (∀ k, (batchAt opts env s k).checked ≤ opts.batchSize) ∧
    ∃ r s2, checkAllFuel opts env n s = some (r, s2) ∧
      ∃ N, N ≤ n ∧
        (∀ k, k < N → (batchAt opts env s k).checked = opts.batchSize) ∧
        (batchAt opts env s N).checked < opts.batchSize ∧
        r.batches = N + 1 ∧
        r.checked = batchSum (fun b => b.checked) opts env s (N + 1) ∧
        r.live = batchSum (fun b => b.live) opts env s (N + 1) ∧
        r.dead = batchSum (fun b => b.dead) opts env s (N + 1) ∧
        r.deleted = batchSum (fun b => b.deleted) opts env s (N + 1) ∧
        r.errors = batchSum (fun b => b.errors) opts env s (N + 1) ∧
        r.delayMs = 1000 * N :=
  ⟨fun k => batchAt_checked_le opts env k s,
   checkAll_run_spec opts env n s h⟩

/-- Witness for C6: with an exhausted due-link queue the very first batch
checks 0 < 10 links, so the sweep stops after one batch. -/
theorem checkAll_terminates_and_sums_witness :
    (∀ k, (batchAt defaultCheckerOptions
      (fun _ => { fetched := [], probe := fun _ => ProbeOutcome.thrown "x",
                  time := 0 })
      { store := [], idx := 0 } k).checked ≤
      defaultCheckerOptions.batchSize) ∧
    ∃ r s2, checkAllFuel defaultCheckerOptions
      (fun _ => { fetched := [], probe := fun _ => ProbeOutcome.thrown "x",
                  time := 0 })
      0 { store := [], idx := 0 } = some (r, s2) ∧
      ∃ N, N ≤ 0 ∧
        (∀ k, k < N → (batchAt defaultCheckerOptions
          (fun _ => { fetched := [],
                      probe := fun _ => ProbeOutcome.thrown "x",
                      time := 0 })
          { store := [], idx := 0 } k).checked =
          defaultCheckerOptions.batchSize) ∧
        (batchAt defaultCheckerOptions
          (fun _ => { fetched := [], probe := fun _ => ProbeOutcome.thrown "x",
                      time := 0 })
          { store := [], idx := 0 } N).checked <
          defaultCheckerOptions.batchSize ∧
        r.batches = N + 1 ∧
        r.checked = batchSum (fun b => b.checked) defaultCheckerOptions
          (fun _ => { fetched := [], probe := fun _ => ProbeOutcome.thrown "x",
                      time := 0 })
          { store := [], idx := 0 } (N + 1) ∧
        r.live = batchSum (fun b => b.live) defaultCheckerOptions
          (fun _ => { fetched := [], probe := fun _ => ProbeOutcome.thrown "x",
                      time := 0 })
          { store := [], idx := 0 } (N + 1) ∧
        r.dead = batchSum (fun b => b.dead) defaultCheckerOptions
          (fun _ => { fetched := [], probe := fun _ => ProbeOutcome.thrown "x",
                      time := 0 })
          { store := [], idx := 0 } (N + 1) ∧
        r.deleted = batchSum (fun b => b.deleted) defaultCheckerOptions
          (fun _ => { fetched := [], probe := fun _ => ProbeOutcome.thrown "x",
                      time := 0 })
          { store := [], idx := 0 } (N + 1) ∧
        r.errors = batchSum (fun b => b.errors) defaultCheckerOptions
          (fun _ => { fetched := [], probe := fun _ => ProbeOutcome.thrown "x",
                      time := 0 })
          { store := [], idx := 0 } (N + 1) ∧
        r.delayMs = 1000 * N :=
  checkAll_terminates_and_sums defaultCheckerOptions
    (fun _ => { fetched := [], probe := fun _ => ProbeOutcome.thrown "x",
                time := 0 })
    { store := [], idx := 0 } 0 (by decide)

end LinksAggregator
